import Mathlib

/-!
Verification of the Cart Consistency Service of the Ecommerce-Application
repository: a shallow embedding of the Express cart routes
(GET /api/cart, POST /api/cart/add, PUT /api/cart/update/:productId,
DELETE /api/cart/remove/:productId, DELETE /api/cart/clear) together with
theorems about their behaviour.

Modelling choices:
* A product record keeps only the fields the cart logic reads: its id,
  name, price and `stock`.  Identifiers are strings (MongoDB ObjectIds are
  compared with `toString()` equality in the source, i.e. string equality).
* Quantities and stock are integers (`Int`): the data model treats them as
  integer counts, and requests may carry negative numbers, which the routes
  must reject.
* A user's cart is the ordered list of its cart lines, as in the
  `userSchema.cart` array.  All routes run behind the `protect` middleware
  and first resolve the authenticated user; the functions below model the
  path where that user exists, taking the user's stored cart as input.
* Each route either persists a new cart (`Except.ok`) or fails before the
  `user.save()` call (`Except.error`), in which case the stored cart is
  untouched.  `persistedAfter` recovers the stored cart after a call.
* A request-body field that may be absent (`quantity === undefined`) is an
  `Option Int`; a missing `productId` is modelled by the empty string,
  which is exactly the falsy case of the source's `!productId` test.
* For the quantity-integrality question the integer domain is too narrow:
  `req.body.quantity` is an arbitrary JSON number.  A second embedding of
  the same handlers (`CartLineR`, `addToCartR`, ...) therefore takes
  quantities as exact rationals and runs the schema's `min: 1` validator
  at `user.save()`.  Over the integer requests the other claims quantify
  on, the two embeddings behave identically (an integer quantity admitted
  by the route checks can never violate `min: 1`, so the validator never
  fires there).
-/

/-- A product record, restricted to the fields the cart routes read. -/
structure Product where
  id : String
  name : String
  price : Int
  stock : Int
  deriving Repr, DecidableEq

/-- One entry of `userSchema.cart`: a product reference and a quantity. -/
structure CartLine where
  productId : String
  quantity : Int
  deriving Repr, DecidableEq

/-- The error outcomes of the cart routes: 400 on malformed input,
404 when a user/product/cart line is missing, and the 400
`Insufficient stock` error thrown by the stock admission check. -/
inductive CartError where
  | invalidArgument
  | notFound
  | insufficientStock
  deriving Repr, DecidableEq

/-- `Product.findById(productId)`: first product of the store whose id
matches (string comparison, as `toString()` comparison in the source). -/
def findProduct (store : List Product) (productId : String) : Option Product :=
  store.find? (fun p => p.id == productId)

/-- JavaScript `Array.prototype.findIndex`, with `-1` rendered as `none`. -/
def findIndex (p : CartLine → Bool) : List CartLine → Option Nat
  | [] => none
  | item :: rest => if p item then some 0 else (findIndex p rest).map (· + 1)

/-- `user.cart[itemIndex].quantity = quantity`: set the quantity of the
line at position `i`, leaving every other line untouched. -/
def setQuantity (cart : List CartLine) (i : Nat) (q : Int) : List CartLine :=
  match cart, i with
  | [], _ => []
  | item :: rest, 0 => { item with quantity := q } :: rest
  | item :: rest, n + 1 => item :: setQuantity rest n q

/-- POST /api/cart/add.  Validates the body, resolves the product, and
either increments the existing line for `productId` or appends a new one,
subject to the stock admission check `product.stock < total`.  The
`Insufficient stock` throw happens before `user.save()`, so an error
leaves the stored cart untouched. -/
def addToCart (store : List Product) (cart : List CartLine)
    (productId : String) (quantity? : Option Int) :
    Except CartError (List CartLine) :=
  match quantity? with
  | none => .error .invalidArgument
  | some quantity =>
    if productId = "" ∨ quantity ≤ 0 then .error .invalidArgument
    else
      match findProduct store productId with
      | none => .error .notFound
      | some product =>
        let itemFound := cart.any (fun item => item.productId == productId)
        if cart.any (fun item => item.productId == productId &&
            decide (product.stock < item.quantity + quantity)) then
          .error .insufficientStock
        else
          let newCart := cart.map (fun item =>
            if item.productId == productId then
              { item with quantity := item.quantity + quantity }
            else item)
          if itemFound then .ok newCart
          else if product.stock < quantity then .error .insufficientStock
          else .ok (newCart ++ [{ productId := productId, quantity := quantity }])

/-- PUT /api/cart/update/:productId.  Validates the body, requires the
cart line and the product to exist, removes the line when the new
quantity is 0 (`splice(itemIndex, 1)`), and otherwise sets the line's
quantity absolutely after the stock admission check. -/
def updateQuantity (store : List Product) (cart : List CartLine)
    (productId : String) (quantity? : Option Int) :
    Except CartError (List CartLine) :=
  match quantity? with
  | none => .error .invalidArgument
  | some quantity =>
    if quantity < 0 then .error .invalidArgument
    else
      match findIndex (fun item => item.productId == productId) cart with
      | none => .error .notFound
      | some itemIndex =>
        match findProduct store productId with
        | none => .error .notFound
        | some product =>
          if quantity = 0 then .ok (cart.eraseIdx itemIndex)
          else if product.stock < quantity then .error .insufficientStock
          else .ok (setQuantity cart itemIndex quantity)

/-- DELETE /api/cart/remove/:productId: filter the line out; always
succeeds for an existing user, whether or not the line was present. -/
def removeFromCart (cart : List CartLine) (productId : String) :
    Except CartError (List CartLine) :=
  .ok (cart.filter (fun item => item.productId != productId))

/-- DELETE /api/cart/clear: `user.cart = []` followed by `user.save()`. -/
def clearCart (_cart : List CartLine) : Except CartError (List CartLine) :=
  .ok []

/-- GET /api/cart: returns the user's stored cart lines (the route joins
product details in via `populate`, one response item per stored line). -/
def getCart (cart : List CartLine) : List CartLine :=
  cart

/-- The stored cart after a route call: the saved cart on success, the
previous cart when the route failed before `user.save()`. -/
def persistedAfter (old : List CartLine) (r : Except CartError (List CartLine)) :
    List CartLine :=
  match r with
  | .ok c => c
  | .error _ => old

/-- The quantity of the (first) cart line for `productId`, 0 if none. -/
def lineQty (cart : List CartLine) (productId : String) : Int :=
  match cart.find? (fun item => item.productId == productId) with
  | some item => item.quantity
  | none => 0

/-- The data-model invariant that cart lines are unique by product id. -/
def uniqueLines (cart : List CartLine) : Prop :=
  (cart.map (fun item => item.productId)).Nodup

instance : DecidablePred uniqueLines := fun cart => by
  unfold uniqueLines
  infer_instance

/-- One entry of `userSchema.cart` with the quantity taken as an
arbitrary JSON number.  `req.body.quantity` is an IEEE double; the values
these theorems touch (small halves such as 2.5) and every comparison and
sum the routes perform on them are exact in double precision, so exact
rationals model them faithfully. -/
structure CartLineR where
  productId : String
  quantity : ℚ
  deriving Repr, DecidableEq

/-- Error outcomes of the rational-quantity model: those of `CartError`,
plus the 500 returned when `user.save()` is rejected by schema
validation. -/
inductive CartErrorR where
  | invalidArgument
  | notFound
  | insufficientStock
  | internal
  deriving Repr, DecidableEq

/-- `Array.prototype.findIndex` over rational-quantity lines. -/
def findIndexR (p : CartLineR → Bool) : List CartLineR → Option Nat
  | [] => none
  | item :: rest => if p item then some 0 else (findIndexR p rest).map (· + 1)

/-- `user.cart[itemIndex].quantity = quantity` over rational
quantities. -/
def setQuantityR (cart : List CartLineR) (i : Nat) (q : ℚ) : List CartLineR :=
  match cart, i with
  | [], _ => []
  | item :: rest, 0 => { item with quantity := q } :: rest
  | item :: rest, n + 1 => item :: setQuantityR rest n q

/-- `user.save()` in the rational-quantity model: mongoose runs the
schema validators on save, and `userSchema.cart.quantity` carries
`min: 1` (part_003 lines 196-200), so the save persists the cart only
when every line's quantity is at least 1; otherwise the handler's catch
returns a 500 and the stored cart is untouched.  The schema has no
integer-valuedness validator. -/
def saveCartR (cart : List CartLineR) : Except CartErrorR (List CartLineR) :=
  if ∀ line ∈ cart, 1 ≤ line.quantity then .ok cart else .error .internal

/-- POST /api/cart/add over JSON-number quantities: the same handler as
`addToCart`, with `user.save()` running the schema validation. -/
def addToCartR (store : List Product) (cart : List CartLineR)
    (productId : String) (quantity? : Option ℚ) :
    Except CartErrorR (List CartLineR) :=
  match quantity? with
  | none => .error .invalidArgument
  | some quantity =>
    if productId = "" ∨ quantity ≤ 0 then .error .invalidArgument
    else
      match findProduct store productId with
      | none => .error .notFound
      | some product =>
        let itemFound := cart.any (fun item => item.productId == productId)
        if cart.any (fun item => item.productId == productId &&
            decide ((product.stock : ℚ) < item.quantity + quantity)) then
          .error .insufficientStock
        else
          let newCart := cart.map (fun item =>
            if item.productId == productId then
              { item with quantity := item.quantity + quantity }
            else item)
          if itemFound then saveCartR newCart
          else if (product.stock : ℚ) < quantity then .error .insufficientStock
          else saveCartR (newCart ++ [{ productId := productId, quantity := quantity }])

/-- PUT /api/cart/update/:productId over JSON-number quantities, with
`user.save()` running the schema validation. -/
def updateQuantityR (store : List Product) (cart : List CartLineR)
    (productId : String) (quantity? : Option ℚ) :
    Except CartErrorR (List CartLineR) :=
  match quantity? with
  | none => .error .invalidArgument
  | some quantity =>
    if quantity < 0 then .error .invalidArgument
    else
      match findIndexR (fun item => item.productId == productId) cart with
      | none => .error .notFound
      | some itemIndex =>
        match findProduct store productId with
        | none => .error .notFound
        | some product =>
          if quantity = 0 then saveCartR (cart.eraseIdx itemIndex)
          else if (product.stock : ℚ) < quantity then .error .insufficientStock
          else saveCartR (setQuantityR cart itemIndex quantity)

/-- DELETE /api/cart/remove/:productId over JSON-number quantities. -/
def removeFromCartR (cart : List CartLineR) (productId : String) :
    Except CartErrorR (List CartLineR) :=
  saveCartR (cart.filter (fun item => item.productId != productId))

/-- DELETE /api/cart/clear over JSON-number quantities. -/
def clearCartR (_cart : List CartLineR) : Except CartErrorR (List CartLineR) :=
  saveCartR []

/-- GET /api/cart over JSON-number quantities. -/
def getCartR (cart : List CartLineR) : List CartLineR :=
  cart

/-- The stored cart after a rational-model route call. -/
def persistedAfterR (old : List CartLineR)
    (r : Except CartErrorR (List CartLineR)) : List CartLineR :=
  match r with
  | .ok c => c
  | .error _ => old

/-! ### Helper lemmas -/

theorem no_match_of_find?_eq_none {cart : List CartLine} {pid : String}
    (h : cart.find? (fun item => item.productId == pid) = none) :
    ∀ item ∈ cart, ¬(item.productId = pid) := by
  intro item hmem
  have := List.find?_eq_none.mp h item hmem
  simpa using this

theorem any_check_eq_false_of_no_match {cart : List CartLine} {pid : String}
    (g : CartLine → Bool)
    (h : ∀ item ∈ cart, ¬(item.productId = pid)) :
    cart.any (fun item => item.productId == pid && g item) = false := by
  rw [List.any_eq_false]
  intro item hmem
  simp [h item hmem]

theorem any_match_eq_false_of_no_match {cart : List CartLine} {pid : String}
    (h : ∀ item ∈ cart, ¬(item.productId = pid)) :
    cart.any (fun item => item.productId == pid) = false := by
  rw [List.any_eq_false]
  intro item hmem
  simp [h item hmem]

theorem map_incr_eq_self_of_no_match {cart : List CartLine} {pid : String}
    (q : Int) (h : ∀ item ∈ cart, ¬(item.productId = pid)) :
    cart.map (fun item =>
      if item.productId == pid then
        { item with quantity := item.quantity + q }
      else item) = cart := by
  have hcongr : ∀ item ∈ cart,
      (if item.productId == pid then
        { item with quantity := item.quantity + q }
      else item) = id item := by
    intro item hmem
    simp [h item hmem]
  rw [List.map_congr_left hcongr, List.map_id]

theorem match_eq_find?_of_unique {cart : List CartLine} {pid : String}
    {line : CartLine} (hu : uniqueLines cart)
    (hfind : cart.find? (fun item => item.productId == pid) = some line) :
    ∀ item ∈ cart, item.productId = pid → item = line := by
  induction cart with
  | nil => simp at hfind
  | cons head rest ih =>
    by_cases hhead : head.productId = pid
    · rw [List.find?_cons_of_pos _ (by simp [hhead])] at hfind
      obtain rfl : head = line := by injection hfind
      intro item hmem hpid
      rcases List.mem_cons.mp hmem with rfl | hrest
      · rfl
      · exfalso
        have hin : head.productId ∈ rest.map (fun item => item.productId) := by
          rw [hhead, ← hpid]
          exact List.mem_map_of_mem _ hrest
        exact (List.nodup_cons.mp hu).1 hin
    · rw [List.find?_cons_of_neg _ (by simp [hhead])] at hfind
      intro item hmem hpid
      rcases List.mem_cons.mp hmem with rfl | hrest
      · exact absurd hpid hhead
      · exact ih (List.Nodup.of_cons hu) hfind item hrest hpid

/-! ### C1 -/

/-- C1: when the resulting total quantity for a product (existing line
quantity plus the requested quantity, or the requested quantity alone
when no line exists) exceeds the product's stock, POST /api/cart/add
fails with the `Insufficient stock` error and the stored cart is exactly
what it was before the call. -/
theorem addToCart_insufficientStock (store : List Product) (cart : List CartLine)
    (pid : String) (q : Int) (product : Product)
    (hpid : pid ≠ "") (hq : 0 < q)
    (hprod : findProduct store pid = some product)
    (hover : product.stock < lineQty cart pid + q) :
    addToCart store cart pid (some q) = .error .insufficientStock ∧
    persistedAfter cart (addToCart store cart pid (some q)) = cart := by
  have hval : ¬(pid = "" ∨ q ≤ 0) := by
    push_neg
    exact ⟨hpid, by omega⟩
  have main : addToCart store cart pid (some q) = .error .insufficientStock := by
    simp only [addToCart, hprod, if_neg hval]
    cases hfind : cart.find? (fun item => item.productId == pid) with
    | none =>
      have hno := no_match_of_find?_eq_none hfind
      have hl : lineQty cart pid = 0 := by
        unfold lineQty
        rw [hfind]
      rw [any_check_eq_false_of_no_match _ hno, any_match_eq_false_of_no_match hno]
      simp only [Bool.false_eq_true, if_false]
      rw [if_pos (by omega : product.stock < q)]
    | some line =>
      have hmatch := List.find?_some hfind
      have hmem := List.mem_of_find?_eq_some hfind
      have hl : lineQty cart pid = line.quantity := by
        unfold lineQty
        rw [hfind]
      have hany : cart.any (fun item => item.productId == pid &&
          decide (product.stock < item.quantity + q)) = true := by
        rw [List.any_eq_true]
        refine ⟨line, hmem, ?_⟩
        simp only [hmatch, Bool.true_and, decide_eq_true_eq]
        omega
      rw [hany]
      simp
  exact ⟨main, by rw [main]; rfl⟩

/-- C1 witness: concrete instance with stock 5, an existing line of 3 and
a request for 3 more. -/
theorem addToCart_insufficientStock_witness :
    addToCart [⟨"p1", "P1", 10, 5⟩] [⟨"p1", 3⟩] "p1" (some 3) =
      .error .insufficientStock ∧
    persistedAfter [⟨"p1", 3⟩]
      (addToCart [⟨"p1", "P1", 10, 5⟩] [⟨"p1", 3⟩] "p1" (some 3)) = [⟨"p1", 3⟩] :=
  addToCart_insufficientStock [⟨"p1", "P1", 10, 5⟩] [⟨"p1", 3⟩] "p1" 3
    ⟨"p1", "P1", 10, 5⟩ (by decide) (by decide) rfl (by decide)

/-! ### C2 -/

/-- C2: POST /api/cart/add is additive when stock suffices: an existing
line for the product gets its quantity incremented by the request, every
other line staying as it was, and when no line exists a single new line
is appended; on an empty cart the result is the single requested line. -/
theorem addToCart_additive (store : List Product) (cart : List CartLine)
    (pid : String) (q : Int) (product : Product)
    (hpid : pid ≠ "") (hq : 0 < q)
    (hprod : findProduct store pid = some product)
    (hu : uniqueLines cart) :
    (∀ line, cart.find? (fun item => item.productId == pid) = some line →
        line.quantity + q ≤ product.stock →
        addToCart store cart pid (some q) =
          .ok (cart.map (fun item =>
            if item.productId == pid then
              { item with quantity := item.quantity + q }
            else item))) ∧
    (cart.find? (fun item => item.productId == pid) = none →
        q ≤ product.stock →
        addToCart store cart pid (some q) = .ok (cart ++ [⟨pid, q⟩])) := by
  have hval : ¬(pid = "" ∨ q ≤ 0) := by
    push_neg
    exact ⟨hpid, by omega⟩
  constructor
  · intro line hfind hle
    have hmatch := List.find?_some hfind
    have hmem := List.mem_of_find?_eq_some hfind
    have hanyfalse : cart.any (fun item => item.productId == pid &&
        decide (product.stock < item.quantity + q)) = false := by
      rw [List.any_eq_false]
      intro item hmem'
      by_cases hp : item.productId = pid
      · obtain rfl := match_eq_find?_of_unique hu hfind item hmem' hp
        simp only [hp, beq_self_eq_true, Bool.true_and, decide_eq_true_eq]
        omega
      · simp [hp]
    have hfound : cart.any (fun item => item.productId == pid) = true := by
      rw [List.any_eq_true]
      exact ⟨line, hmem, hmatch⟩
    simp only [addToCart, hprod, if_neg hval, hanyfalse, hfound]
    simp
  · intro hfind hle
    have hno := no_match_of_find?_eq_none hfind
    simp only [addToCart, hprod, if_neg hval]
    rw [any_check_eq_false_of_no_match _ hno, any_match_eq_false_of_no_match hno,
      map_incr_eq_self_of_no_match q hno]
    simp only [Bool.false_eq_true, if_false]
    rw [if_neg (by omega : ¬(product.stock < q))]

/-- C2 witness: adding 2 to an existing line of 2 (stock 5) yields 4,
other lines untouched; adding 3 to an empty cart yields the single line. -/
theorem addToCart_additive_witness :
    addToCart [⟨"p1", "P1", 10, 5⟩] [⟨"p2", 1⟩, ⟨"p1", 2⟩] "p1" (some 2) =
      .ok [⟨"p2", 1⟩, ⟨"p1", 4⟩] ∧
    addToCart [⟨"p1", "P1", 10, 5⟩] [] "p1" (some 3) = .ok [⟨"p1", 3⟩] := by
  have h1 := addToCart_additive [⟨"p1", "P1", 10, 5⟩] [⟨"p2", 1⟩, ⟨"p1", 2⟩]
    "p1" 2 ⟨"p1", "P1", 10, 5⟩ (by decide) (by decide) rfl (by decide)
  have h2 := addToCart_additive [⟨"p1", "P1", 10, 5⟩] [] "p1" 3
    ⟨"p1", "P1", 10, 5⟩ (by decide) (by decide) rfl (by decide)
  exact ⟨h1.1 ⟨"p1", 2⟩ rfl (by decide), h2.2 rfl (by decide)⟩

/-! ### C3 -/

/-- C3: PUT /api/cart/update/:productId with a non-negative quantity
fails with 404 when the cart has no line for the product; when the line
exists, the product resolves and the quantity is positive, it fails with
`Insufficient stock` when the quantity exceeds stock and otherwise sets
that line's quantity to exactly the request (not additively), leaving the
other lines unchanged; any failure leaves the stored cart unchanged. -/
theorem updateQuantity_spec (store : List Product) (cart : List CartLine)
    (pid : String) (q : Int) (hq : 0 ≤ q) :
    (findIndex (fun item => item.productId == pid) cart = none →
        updateQuantity store cart pid (some q) = .error .notFound) ∧
    (∀ i product, findIndex (fun item => item.productId == pid) cart = some i →
        findProduct store pid = some product → 0 < q →
        (product.stock < q →
            updateQuantity store cart pid (some q) = .error .insufficientStock) ∧
        (q ≤ product.stock →
            updateQuantity store cart pid (some q) = .ok (setQuantity cart i q))) ∧
    (∀ e, updateQuantity store cart pid (some q) = .error e →
        persistedAfter cart (updateQuantity store cart pid (some q)) = cart) := by
  have hval : ¬(q < 0) := by omega
  refine ⟨?_, ?_, ?_⟩
  · intro hnone
    simp only [updateQuantity, if_neg hval, hnone]
  · intro i product hidx hprod hpos
    constructor
    · intro hover
      simp only [updateQuantity, if_neg hval, hidx, hprod]
      rw [if_neg (by omega : ¬(q = 0)), if_pos hover]
    · intro hle
      simp only [updateQuantity, if_neg hval, hidx, hprod]
      rw [if_neg (by omega : ¬(q = 0)), if_neg (by omega : ¬(product.stock < q))]
  · intro e herr
    rw [herr]
    rfl

/-- C3 witness: with stock 5 — updating a line that is not in the cart is
404; updating an existing line of 3 to 7 is `Insufficient stock`;
updating it to 5 sets it to exactly 5; the 404 failure left the cart as
it was. -/
theorem updateQuantity_spec_witness :
    updateQuantity [⟨"p1", "P1", 10, 5⟩] [⟨"p2", 1⟩] "p1" (some 2) =
      .error .notFound ∧
    updateQuantity [⟨"p1", "P1", 10, 5⟩] [⟨"p1", 3⟩] "p1" (some 7) =
      .error .insufficientStock ∧
    updateQuantity [⟨"p1", "P1", 10, 5⟩] [⟨"p1", 3⟩] "p1" (some 5) =
      .ok [⟨"p1", 5⟩] ∧
    persistedAfter [⟨"p2", 1⟩]
      (updateQuantity [⟨"p1", "P1", 10, 5⟩] [⟨"p2", 1⟩] "p1" (some 2)) =
      [⟨"p2", 1⟩] := by
  have h1 := updateQuantity_spec [⟨"p1", "P1", 10, 5⟩] [⟨"p2", 1⟩] "p1" 2 (by decide)
  have h2 := updateQuantity_spec [⟨"p1", "P1", 10, 5⟩] [⟨"p1", 3⟩] "p1" 7 (by decide)
  have h3 := updateQuantity_spec [⟨"p1", "P1", 10, 5⟩] [⟨"p1", 3⟩] "p1" 5 (by decide)
  have e1 := h1.1 (by decide)
  refine ⟨e1, ?_, ?_, h1.2.2 .notFound e1⟩
  · exact (h2.2.1 0 ⟨"p1", "P1", 10, 5⟩ rfl rfl (by decide)).1 (by decide)
  · exact (h3.2.1 0 ⟨"p1", "P1", 10, 5⟩ rfl rfl (by decide)).2 (by decide)

/-! ### C9 -/

/-- C9: if the user's cart holds a line for a product id that no longer
resolves in the product store, PUT /api/cart/update/:productId fails with
404 for every non-negative quantity — including 0, where the line is not
removed — and the stored cart is unchanged. -/
theorem updateQuantity_missingProduct_notFound (store : List Product)
    (cart : List CartLine) (pid : String) (q : Int) (i : Nat)
    (hq : 0 ≤ q)
    (hline : findIndex (fun item => item.productId == pid) cart = some i)
    (hprod : findProduct store pid = none) :
    updateQuantity store cart pid (some q) = .error .notFound ∧
    persistedAfter cart (updateQuantity store cart pid (some q)) = cart := by
  have hval : ¬(q < 0) := by omega
  have main : updateQuantity store cart pid (some q) = .error .notFound := by
    simp only [updateQuantity, if_neg hval, hline, hprod]
  exact ⟨main, by rw [main]; rfl⟩

/-- C9 witness: a cart line for "p1" with an empty product store; the
quantity-0 update is refused with 404 and the line survives. -/
theorem updateQuantity_missingProduct_notFound_witness :
    updateQuantity ([] : List Product) [⟨"p1", 2⟩] "p1" (some 0) =
      .error .notFound ∧
    persistedAfter [⟨"p1", 2⟩]
      (updateQuantity ([] : List Product) [⟨"p1", 2⟩] "p1" (some 0)) =
      [⟨"p1", 2⟩] :=
  updateQuantity_missingProduct_notFound [] [⟨"p1", 2⟩] "p1" 0 0
    (by decide) (by decide) rfl

/-! ### C10 -/

/-- C10: PUT /api/cart/update/:productId rejects a missing or negative
quantity with the 400 validation error before it consults the user's cart
or the store — the result is this error for every store and cart — and
the stored cart is unchanged. -/
theorem updateQuantity_invalid (store : List Product) (cart : List CartLine)
    (pid : String) :
    (updateQuantity store cart pid none = .error .invalidArgument ∧
     persistedAfter cart (updateQuantity store cart pid none) = cart) ∧
    (∀ q : Int, q < 0 →
        updateQuantity store cart pid (some q) = .error .invalidArgument ∧
        persistedAfter cart (updateQuantity store cart pid (some q)) = cart) := by
  refine ⟨⟨rfl, rfl⟩, ?_⟩
  intro q hneg
  have main : updateQuantity store cart pid (some q) = .error .invalidArgument := by
    simp only [updateQuantity, if_pos hneg]
  exact ⟨main, by rw [main]; rfl⟩

/-- C10 witness: quantity -1 (and a missing quantity) on a cart that does
hold the line and a store that does hold the product. -/
theorem updateQuantity_invalid_witness :
    updateQuantity [⟨"p1", "P1", 10, 5⟩] [⟨"p1", 3⟩] "p1" none =
      .error .invalidArgument ∧
    updateQuantity [⟨"p1", "P1", 10, 5⟩] [⟨"p1", 3⟩] "p1" (some (-1)) =
      .error .invalidArgument ∧
    persistedAfter [⟨"p1", 3⟩]
      (updateQuantity [⟨"p1", "P1", 10, 5⟩] [⟨"p1", 3⟩] "p1" (some (-1))) =
      [⟨"p1", 3⟩] := by
  have h := updateQuantity_invalid [⟨"p1", "P1", 10, 5⟩] [⟨"p1", 3⟩] "p1"
  exact ⟨h.1.1, (h.2 (-1) (by decide)).1, (h.2 (-1) (by decide)).2⟩

/-! ### C4 -/

theorem saveCartR_ok_valid {c c' : List CartLineR}
    (h : saveCartR c = .ok c') : ∀ line ∈ c', 1 ≤ line.quantity := by
  unfold saveCartR at h
  split at h
  · injection h with he
    subst he
    assumption
  · simp at h

theorem addToCartR_ok_valid {store : List Product} {cart : List CartLineR}
    {pid : String} {q? : Option ℚ} {cart' : List CartLineR}
    (hok : addToCartR store cart pid q? = .ok cart') :
    ∀ line ∈ cart', 1 ≤ line.quantity := by
  simp only [addToCartR] at hok
  split at hok
  · simp at hok
  · split at hok
    · simp at hok
    · split at hok
      · simp at hok
      · split at hok
        · simp at hok
        · split at hok
          · exact saveCartR_ok_valid hok
          · split at hok
            · simp at hok
            · exact saveCartR_ok_valid hok

theorem updateQuantityR_ok_valid {store : List Product} {cart : List CartLineR}
    {pid : String} {q? : Option ℚ} {cart' : List CartLineR}
    (hok : updateQuantityR store cart pid q? = .ok cart') :
    ∀ line ∈ cart', 1 ≤ line.quantity := by
  simp only [updateQuantityR] at hok
  split at hok
  · simp at hok
  · split at hok
    · simp at hok
    · split at hok
      · simp at hok
      · split at hok
        · simp at hok
        · split at hok
          · exact saveCartR_ok_valid hok
          · split at hok
            · simp at hok
            · exact saveCartR_ok_valid hok

theorem removeFromCartR_ok_valid {cart : List CartLineR} {pid : String}
    {cart' : List CartLineR}
    (hok : removeFromCartR cart pid = .ok cart') :
    ∀ line ∈ cart', 1 ≤ line.quantity :=
  saveCartR_ok_valid hok

theorem clearCartR_ok_valid {cart cart' : List CartLineR}
    (hok : clearCartR cart = .ok cart') :
    ∀ line ∈ cart', 1 ≤ line.quantity :=
  saveCartR_ok_valid hok

/-- C4 counterexample to the claim as stated: the routes do admit a
non-integer quantity into the stored cart.  The JSON-number request 2.5
(the exact rational 5/2) passes the add route's `quantity <= 0` check and
the schema's `min: 1` validator, so with stock 5 it is persisted as a
cart line whose quantity equals no integer. -/
theorem nonInteger_quantity_admitted :
    addToCartR [⟨"p1", "P1", 10, 5⟩] [] "p1" (some (5/2 : ℚ)) =
      .ok [⟨"p1", (5/2 : ℚ)⟩] ∧
    ∀ n : ℤ, (5/2 : ℚ) ≠ (n : ℚ) := by
  constructor
  · have hval : ¬(("p1" : String) = "" ∨ (5/2 : ℚ) ≤ 0) := by
      push_neg
      exact ⟨by decide, by norm_num⟩
    have hfp : findProduct [⟨"p1", "P1", 10, 5⟩] "p1" =
        some ⟨"p1", "P1", 10, 5⟩ := rfl
    simp only [addToCartR, if_neg hval, hfp, List.any_nil, List.map_nil,
      Bool.false_eq_true, if_false, List.nil_append]
    rw [if_neg (by push_cast; norm_num : ¬(((5 : Int) : ℚ) < 5/2))]
    unfold saveCartR
    rw [if_pos]
    intro line hmem
    simp only [List.mem_singleton] at hmem
    subst hmem
    norm_num
  · intro n h
    rw [div_eq_iff (by norm_num : (2 : ℚ) ≠ 0)] at h
    have h3 : (5 : ℤ) = n * 2 := by exact_mod_cast h
    omega

/-- C4 (amended): every cart line persisted by any of the five routes has
a positive quantity — at least 1, the schema's `min: 1` floor — whatever
JSON-number quantity the request carried: a line with quantity 0 is never
stored (the quantity-0 update removes the line) and no route admits a
non-positive quantity, but integrality is not enforced. -/
theorem cart_positive_invariant_rational (store : List Product)
    (cart : List CartLineR) (pid : String) (q? : Option ℚ)
    (hpos : ∀ line ∈ cart, 1 ≤ line.quantity) :
    (∀ line ∈ persistedAfterR cart (addToCartR store cart pid q?),
        1 ≤ line.quantity) ∧
    (∀ line ∈ persistedAfterR cart (updateQuantityR store cart pid q?),
        1 ≤ line.quantity) ∧
    (∀ line ∈ persistedAfterR cart (removeFromCartR cart pid),
        1 ≤ line.quantity) ∧
    (∀ line ∈ persistedAfterR cart (clearCartR cart), 1 ≤ line.quantity) ∧
    (∀ line ∈ getCartR cart, 1 ≤ line.quantity) := by
  refine ⟨?_, ?_, ?_, ?_, hpos⟩
  · cases hr : addToCartR store cart pid q? with
    | ok c => exact addToCartR_ok_valid hr
    | error e => exact hpos
  · cases hr : updateQuantityR store cart pid q? with
    | ok c => exact updateQuantityR_ok_valid hr
    | error e => exact hpos
  · cases hr : removeFromCartR cart pid with
    | ok c => exact removeFromCartR_ok_valid hr
    | error e => exact hpos
  · cases hr : clearCartR cart with
    | ok c => exact clearCartR_ok_valid hr
    | error e => exact hpos

/-- C4 witness: the invariant applied to the concrete cart [("p1",3)]
with stock 5 and a request of quantity 2, across all five routes. -/
theorem cart_positive_invariant_rational_witness :
    (∀ line ∈ ([⟨"p1", (3 : ℚ)⟩] : List CartLineR), 1 ≤ line.quantity) ∧
    (∀ line ∈ persistedAfterR [⟨"p1", (3 : ℚ)⟩]
        (addToCartR [⟨"p1", "P1", 10, 5⟩] [⟨"p1", (3 : ℚ)⟩] "p1" (some 2)),
      1 ≤ line.quantity) ∧
    (∀ line ∈ persistedAfterR [⟨"p1", (3 : ℚ)⟩]
        (updateQuantityR [⟨"p1", "P1", 10, 5⟩] [⟨"p1", (3 : ℚ)⟩] "p1" (some 2)),
      1 ≤ line.quantity) ∧
    (∀ line ∈ persistedAfterR [⟨"p1", (3 : ℚ)⟩]
        (removeFromCartR [⟨"p1", (3 : ℚ)⟩] "p1"), 1 ≤ line.quantity) ∧
    (∀ line ∈ persistedAfterR [⟨"p1", (3 : ℚ)⟩]
        (clearCartR [⟨"p1", (3 : ℚ)⟩]), 1 ≤ line.quantity) ∧
    (∀ line ∈ getCartR [⟨"p1", (3 : ℚ)⟩], 1 ≤ line.quantity) := by
  have h := cart_positive_invariant_rational [⟨"p1", "P1", 10, 5⟩]
    [⟨"p1", (3 : ℚ)⟩] "p1" (some 2) (by decide)
  exact ⟨by decide, h.1, h.2.1, h.2.2.1, h.2.2.2.1, h.2.2.2.2⟩

/-! ### C5 -/

theorem filter_ne_eq_self_of_no_match {cart : List CartLine} {pid : String}
    (h : ∀ item ∈ cart, ¬(item.productId = pid)) :
    cart.filter (fun item => item.productId != pid) = cart :=
  List.filter_eq_self.mpr (fun item hmem => by simpa using h item hmem)

theorem eraseIdx_findIndex_eq_filter {cart : List CartLine} {pid : String}
    {i : Nat} (hu : uniqueLines cart)
    (hidx : findIndex (fun item => item.productId == pid) cart = some i) :
    cart.eraseIdx i = cart.filter (fun item => item.productId != pid) := by
  induction cart generalizing i with
  | nil => simp [findIndex] at hidx
  | cons head rest ih =>
    by_cases hhead : head.productId = pid
    · simp only [findIndex, hhead, beq_self_eq_true, if_true] at hidx
      injection hidx with hi
      subst hi
      have hrest : ∀ item ∈ rest, ¬(item.productId = pid) := by
        intro item hmem hp
        have hin : head.productId ∈ rest.map (fun item => item.productId) := by
          rw [hhead, ← hp]
          exact List.mem_map_of_mem _ hmem
        exact (List.nodup_cons.mp hu).1 hin
      rw [List.filter_cons_of_neg (by simp [hhead]),
        filter_ne_eq_self_of_no_match hrest]
      rfl
    · simp only [findIndex, beq_eq_false_iff_ne, ne_eq, hhead,
        not_false_eq_true, if_neg, beq_iff_eq] at hidx
      cases hfi : findIndex (fun item => item.productId == pid) rest with
      | none =>
        rw [hfi] at hidx
        simp at hidx
      | some j =>
        rw [hfi] at hidx
        simp only [Option.map_some'] at hidx
        injection hidx with hi
        subst hi
        rw [List.filter_cons_of_pos (by simp [hhead])]
        simp only [List.eraseIdx]
        rw [ih (List.Nodup.of_cons hu) hfi]

/-- C5 counterexample to the claim as stated: with the line ("p1",2) in
the cart but no product "p1" in the store, the quantity-0 update fails
with 404 — it does not remove the line — while the remove route succeeds,
so the two calls are not equivalent for every product identifier. -/
theorem updateZero_remove_differ :
    updateQuantity ([] : List Product) [⟨"p1", 2⟩] "p1" (some 0) =
      .error .notFound ∧
    removeFromCart [⟨"p1", 2⟩] "p1" = .ok ([] : List CartLine) :=
  ⟨rfl, rfl⟩

/-- C5 (amended): whenever the cart (unique by product id) holds a line
for the product AND the product id still resolves in the store, the
quantity-0 update and the remove route both succeed, produce the same
stored cart, and a subsequent GET /api/cart does not list the product. -/
theorem updateZero_equiv_remove (store : List Product) (cart : List CartLine)
    (pid : String) (i : Nat) (product : Product)
    (hu : uniqueLines cart)
    (hidx : findIndex (fun item => item.productId == pid) cart = some i)
    (hprod : findProduct store pid = some product) :
    ∃ cart', updateQuantity store cart pid (some 0) = .ok cart' ∧
      removeFromCart cart pid = .ok cart' ∧
      ∀ line ∈ getCart cart', ¬(line.productId = pid) := by
  refine ⟨cart.filter (fun item => item.productId != pid), ?_, rfl, ?_⟩
  · simp only [updateQuantity, hidx, hprod]
    rw [if_neg (by omega : ¬((0 : Int) < 0)), if_pos trivial,
      eraseIdx_findIndex_eq_filter hu hidx]
  · intro line hmem
    have := (List.mem_filter.mp hmem).2
    simpa using this

/-- C5 witness: removing "p1" from [("p1",2),("p2",1)] via the quantity-0
update and via the remove route yields the same cart [("p2",1)]. -/
theorem updateZero_equiv_remove_witness :
    updateQuantity [⟨"p1", "P1", 10, 5⟩] [⟨"p1", 2⟩, ⟨"p2", 1⟩] "p1" (some 0) =
      .ok [⟨"p2", 1⟩] ∧
    removeFromCart [⟨"p1", 2⟩, ⟨"p2", 1⟩] "p1" = .ok [⟨"p2", 1⟩] := by
  obtain ⟨cart', h1, h2, h3⟩ := updateZero_equiv_remove [⟨"p1", "P1", 10, 5⟩]
    [⟨"p1", 2⟩, ⟨"p2", 1⟩] "p1" 0 ⟨"p1", "P1", 10, 5⟩ (by decide) (by decide) rfl
  have hconc : removeFromCart [⟨"p1", 2⟩, ⟨"p2", 1⟩] "p1" = .ok [⟨"p2", 1⟩] := rfl
  rw [h2] at hconc
  injection hconc with he
  subst he
  exact ⟨h1, h2⟩

/-! ### C6 -/

/-- C6: DELETE /api/cart/remove/:productId always succeeds for an
existing user: the result keeps exactly the lines for other products (in
particular it is the unchanged cart when no line for the product exists,
a no-op rather than an error), and removing a second time returns the
same cart (idempotence). -/
theorem removeFromCart_spec (cart : List CartLine) (pid : String) :
    ∃ cart', removeFromCart cart pid = .ok cart' ∧
      (∀ line ∈ cart', line ∈ cart ∧ ¬(line.productId = pid)) ∧
      (∀ line ∈ cart, ¬(line.productId = pid) → line ∈ cart') ∧
      ((∀ line ∈ cart, ¬(line.productId = pid)) → cart' = cart) ∧
      removeFromCart cart' pid = .ok cart' := by
  refine ⟨cart.filter (fun item => item.productId != pid), rfl, ?_, ?_, ?_, ?_⟩
  · intro line hmem
    have := List.mem_filter.mp hmem
    refine ⟨this.1, ?_⟩
    simpa using this.2
  · intro line hmem hne
    exact List.mem_filter.mpr ⟨hmem, by simpa using hne⟩
  · intro hall
    exact List.filter_eq_self.mpr (fun item hmem => by simpa using hall item hmem)
  · unfold removeFromCart
    congr 1
    exact List.filter_eq_self.mpr (fun item hmem => (List.mem_filter.mp hmem).2)

/-- C6 witness: removing "p1" from [("p1",2),("p2",1)] keeps ("p2",1);
removing it again from [("p2",1)] is a successful no-op. -/
theorem removeFromCart_spec_witness :
    removeFromCart [⟨"p1", 2⟩, ⟨"p2", 1⟩] "p1" = .ok [⟨"p2", 1⟩] ∧
    removeFromCart [⟨"p2", 1⟩] "p1" = .ok [⟨"p2", 1⟩] := by
  obtain ⟨c1, h1, hsub1, hkeep1, hnoop1, hidem1⟩ :=
    removeFromCart_spec [⟨"p1", 2⟩, ⟨"p2", 1⟩] "p1"
  obtain ⟨c2, h2, hsub2, hkeep2, hnoop2, hidem2⟩ :=
    removeFromCart_spec [⟨"p2", 1⟩] "p1"
  have hc1 : removeFromCart [⟨"p1", 2⟩, ⟨"p2", 1⟩] "p1" = .ok [⟨"p2", 1⟩] := rfl
  rw [h1] at hc1
  injection hc1 with he1
  subst he1
  have he2 : c2 = [⟨"p2", 1⟩] := hnoop2 (by decide)
  subst he2
  exact ⟨h1, h2⟩

/-! ### C7 -/

/-- C7: DELETE /api/cart/clear succeeds unconditionally for an existing
user, persists the empty cart whatever the prior cart was, and a
GET /api/cart performed on the stored state afterwards returns the empty
list. -/
theorem clearCart_empties (cart : List CartLine) :
    clearCart cart = .ok [] ∧
    getCart (persistedAfter cart (clearCart cart)) = [] :=
  ⟨rfl, rfl⟩

/-! ### C8 -/

/-- C8: the concrete scenario with product "p1" of stock 5 on an empty
cart: add 3 → [("p1",3)]; add 3 again → `Insufficient stock` (3+3=6 > 5)
with the stored cart still [("p1",3)]; update to 5 → [("p1",5)]; update
to 0 → []. -/
theorem cart_scenario_stock5 :
    addToCart [⟨"p1", "P1", 10, 5⟩] [] "p1" (some 3) = .ok [⟨"p1", 3⟩] ∧
    addToCart [⟨"p1", "P1", 10, 5⟩] [⟨"p1", 3⟩] "p1" (some 3) =
      .error .insufficientStock ∧
    persistedAfter [⟨"p1", 3⟩]
      (addToCart [⟨"p1", "P1", 10, 5⟩] [⟨"p1", 3⟩] "p1" (some 3)) = [⟨"p1", 3⟩] ∧
    updateQuantity [⟨"p1", "P1", 10, 5⟩] [⟨"p1", 3⟩] "p1" (some 5) =
      .ok [⟨"p1", 5⟩] ∧
    updateQuantity [⟨"p1", "P1", 10, 5⟩] [⟨"p1", 5⟩] "p1" (some 0) =
      .ok ([] : List CartLine) :=
  ⟨rfl, rfl, rfl, rfl, rfl⟩
